import Mathlib

/-!
Shallow embedding of `src/docs/js/custom.js` (Unipto/DS_6): a frame height
synchronizer.  The script defines `resizeIframe`, which sets an iframe's
`height` attribute to its inner document body's `scrollHeight` plus 100, and a
`DOMContentLoaded` handler that registers a `MutationObserver` over
`document.body` with options `childList := true, subtree := true`; the observer
callback rescans the whole document for iframes, resizes each one and registers
a fresh inner-window `DOMContentLoaded` listener on it.

Modelling choices:
- an iframe element is a record carrying a stable identity (`id`, standing for
  JS object identity), its reflected `height` attribute (`none` when unset),
  and its `contentWindow` (`none` when absent or inaccessible, in which case
  the property chain `e.contentWindow.document.body.scrollHeight` throws before
  the assignment to `e.height` happens);
- `resizeIframe` therefore returns `Except Unit Iframe`: the right-hand side is
  evaluated first, so on the error path no write occurs;
- the observer callback (`document.querySelectorAll("iframe").forEach`) aborts
  at the first frame whose resize throws, leaving that frame and all later ones
  untouched and registering no further listeners, which `observerCallback`
  reproduces by returning the unprocessed tail together with an `ok?` flag;
- the event system is a step function on a `SyncState`: the host document's
  iframe list (in document order), the multiset of registered inner-load
  listeners (as a list of frame ids, one entry per `addEventListener` call,
  since each callback run creates a fresh closure that is never deduplicated),
  and whether the observer has been registered.  A mutation batch event carries
  the kinds of mutation records in the batch and the iframe list of the
  document after the mutation; the observer callback runs only when the batch
  contains a childList record, matching the observer options.
-/

namespace FrameSync

/-- The inner document reachable through `e.contentWindow.document`; the only
field the script reads is `body.scrollHeight`. -/
structure InnerDoc where
  bodyScrollHeight : Nat
deriving DecidableEq, Repr

/-- An iframe element: identity, reflected `height` attribute (unset = `none`),
and the inner window (`none` when absent/inaccessible). -/
structure Iframe where
  id : Nat
  height : Option Nat
  contentWindow : Option InnerDoc
deriving DecidableEq, Repr

/-- Embedding of `resizeIframe(e)`:
`e.height = e.contentWindow.document.body.scrollHeight + 100;`.
The right-hand side is evaluated first, so if `contentWindow` is absent the
statement throws before any write to `e.height`. -/
def resizeIframe (e : Iframe) : Except Unit Iframe :=
  match e.contentWindow with
  | none => Except.error ()
  | some w => Except.ok { e with height := some (w.bodyScrollHeight + 100) }

/-- The inner body scroll height visible through a frame, when accessible. -/
def innerHeight (e : Iframe) : Option Nat :=
  e.contentWindow.map InnerDoc.bodyScrollHeight

/-- The effect of `resizeIframe` on the element as it sits in the document:
on success the returned element replaces it, on a throw it is unchanged. -/
def applyResize (e : Iframe) : Iframe :=
  match resizeIframe e with
  | Except.ok e' => e'
  | Except.error _ => e

/-- Kinds of DOM mutation records.  The script's observer options
`childList := true, subtree := true` deliver only childList records; attribute
writes (such as setting `height`) and character-data edits produce the other
two kinds, which this observer never receives. -/
inductive MutKind where
  | childList
  | attributes
  | characterData
deriving DecidableEq, Repr

/-- Setting an element's `height` attribute produces an attribute mutation
record, never a childList one. -/
def heightWriteMutation : MutKind := MutKind.attributes

/-- The body of the `MutationObserver` callback, run over the full iframe list
returned by `document.querySelectorAll("iframe")`: for each frame, call
`resizeIframe(e)` and then register a fresh `DOMContentLoaded` listener on
`e.contentWindow`.  Returns the updated iframe list, the ids of the frames a
listener was registered for (in order), and whether the loop ran to completion;
a throw in `resizeIframe` aborts the `forEach`, leaving the throwing frame and
every later frame untouched. -/
def observerCallback : List Iframe → List Iframe × List Nat × Bool
  | [] => ([], [], true)
  | e :: es =>
    match resizeIframe e with
    | Except.error _ => (e :: es, [], false)
    | Except.ok e' =>
      let r := observerCallback es
      (e' :: r.1, e.id :: r.2.1, r.2.2)

/-- A change of the frame's inner content height: no host-document structural
mutation is involved. -/
def setInnerHeight (h : Nat) (e : Iframe) : Iframe :=
  { e with contentWindow := e.contentWindow.map fun _ => InnerDoc.mk h }

/-- Apply `resizeIframe` (keeping the frame unchanged on a throw) to every
frame in the document whose identity is `fid`: the action of one registered
inner-load listener closure, which captured the element reference. -/
def resizeById (fid : Nat) (ifs : List Iframe) : List Iframe :=
  ifs.map fun e => if e.id = fid then applyResize e else e

/-- Fire `n` registered inner-load listeners for frame `fid` in sequence; each
one invokes `resizeIframe` on its captured element (DOM event dispatch runs
every listener even if an earlier one throws). -/
def fireLoadListeners (fid : Nat) : Nat → List Iframe → List Iframe
  | 0, ifs => ifs
  | n + 1, ifs => fireLoadListeners fid n (resizeById fid ifs)

/-- Global state of the synchronizer: the iframes currently in the document in
document order, the registered inner-window load listeners (one list entry per
`addEventListener` call, recording the captured frame's id), and whether the
`MutationObserver` has been registered. -/
structure SyncState where
  iframes : List Iframe
  loadListeners : List Nat
  observing : Bool
deriving DecidableEq, Repr

/-- Events the script reacts to (or fails to react to). -/
inductive Event where
  | hostContentParsed
  | mutationBatch (kinds : List MutKind) (domAfter : List Iframe)
  | innerHeightChange (fid : Nat) (h : Nat)
  | frameLoad (fid : Nat)
deriving DecidableEq, Repr

/-- One step of the event system.
`hostContentParsed` runs the `DOMContentLoaded` handler, which only constructs
the observer and calls `obs.observe(document.body, childList and subtree)`.
`mutationBatch kinds domAfter` applies a DOM change (the document's iframes
become `domAfter`); the observer callback then runs iff the observer is
registered and the batch holds a childList record, since those are the only
records the observer options select.  `innerHeightChange` changes one frame's
inner content height, producing no host mutation record at all.  `frameLoad`
fires the inner `DOMContentLoaded` of frame `fid`, running every listener
registered for it. -/
def step (s : SyncState) : Event → SyncState
  | Event.hostContentParsed => { s with observing := true }
  | Event.mutationBatch kinds domAfter =>
    if s.observing = true ∧ MutKind.childList ∈ kinds then
      let r := observerCallback domAfter
      { s with iframes := r.1, loadListeners := s.loadListeners ++ r.2.1 }
    else
      { s with iframes := domAfter }
  | Event.innerHeightChange fid h =>
    { s with iframes := s.iframes.map fun e => if e.id = fid then setInnerHeight h e else e }
  | Event.frameLoad fid =>
    { s with iframes := fireLoadListeners fid (s.loadListeners.count fid) s.iframes }

/-- When every frame in the list has an accessible inner window, the observer
callback runs to completion: it resizes every frame and registers one listener
per frame, in document order. -/
theorem observerCallback_all_ok (ifs : List Iframe)
    (hacc : ∀ e ∈ ifs, e.contentWindow.isSome = true) :
    observerCallback ifs = (ifs.map applyResize, ifs.map Iframe.id, true) := by
  induction ifs with
  | nil => rfl
  | cons e es ih =>
    obtain ⟨w, hw⟩ := Option.isSome_iff_exists.mp (hacc e (List.mem_cons_self e es))
    have hes := ih fun x hx => hacc x (List.mem_cons_of_mem e hx)
    simp [observerCallback, resizeIframe, hw, hes, applyResize]

/-- An accessible frame is resized to its inner scroll height plus the margin,
keeping its identity and inner window. -/
theorem applyResize_accessible (e : Iframe) (w : InnerDoc)
    (hw : e.contentWindow = some w) :
    applyResize e =
      { e with height := some (w.bodyScrollHeight + 100) } := by
  simp [applyResize, resizeIframe, hw]

/-- Resizing twice in place is the same as resizing once. -/
theorem applyResize_applyResize (e : Iframe) :
    applyResize (applyResize e) = applyResize e := by
  match hw : e.contentWindow with
  | none => simp [applyResize, resizeIframe, hw]
  | some w => simp [applyResize, resizeIframe, hw]

/-- Firing further listeners after the first leaves the document unchanged. -/
theorem resizeById_resizeById (fid : Nat) (ifs : List Iframe) :
    resizeById fid (resizeById fid ifs) = resizeById fid ifs := by
  simp only [resizeById, List.map_map]
  refine List.map_congr_left fun e _ => ?_
  by_cases h : e.id = fid
  · have hid : (applyResize e).id = e.id := by
      match hw : e.contentWindow with
      | none => simp [applyResize, resizeIframe, hw]
      | some w => rw [applyResize_accessible e w hw]
    simp [Function.comp, h, hid, applyResize_applyResize]
  · simp [Function.comp, h]

/-- As soon as one listener is registered for a frame, firing all of its
listeners has the effect of a single resize of that frame. -/
theorem fireLoadListeners_pos (fid : Nat) (n : Nat) (ifs : List Iframe) :
    fireLoadListeners fid (n + 1) ifs = resizeById fid ifs := by
  induction n generalizing ifs with
  | zero => rfl
  | succ m ih =>
    show fireLoadListeners fid (m + 1) (resizeById fid ifs) = resizeById fid ifs
    rw [ih, resizeById_resizeById]

/-- C1: for a frame whose inner document body has scroll height `H`, running
`resizeIframe` succeeds and sets the frame's `height` attribute to `H + 100`. -/
theorem resize_sets_height_plus_margin (e : Iframe) (w : InnerDoc)
    (h : e.contentWindow = some w) :
    ∃ e', resizeIframe e = Except.ok e' ∧ e'.height = some (w.bodyScrollHeight + 100) := by
  refine ⟨{ e with height := some (w.bodyScrollHeight + 100) }, ?_, rfl⟩
  simp [resizeIframe, h]

/-- C1 witness: a frame with inner scroll height 300 gets height 400. -/
theorem resize_sets_height_plus_margin_witness :
    (Iframe.mk 0 none (some (InnerDoc.mk 300))).contentWindow = some (InnerDoc.mk 300) ∧
    ∃ e', resizeIframe (Iframe.mk 0 none (some (InnerDoc.mk 300))) = Except.ok e' ∧
      e'.height = some 400 :=
  ⟨rfl, resize_sets_height_plus_margin (Iframe.mk 0 none (some (InnerDoc.mk 300)))
    (InnerDoc.mk 300) rfl⟩

/-- A concrete frame for concrete runs: identity 0, `height` attribute unset,
inner body scroll height 200. -/
def frame0 : Iframe := Iframe.mk 0 none (some (InnerDoc.mk 200))

/-- A second concrete frame: identity 1, previously written height 250, inner
body scroll height 500. -/
def frame1 : Iframe := Iframe.mk 1 (some 250) (some (InnerDoc.mk 500))

/-- A concrete state: only `frame0` present, observer registered, no listener
registered yet. -/
def state0 : SyncState := SyncState.mk [frame0] [] true

/-- A concrete state: only `frame1` present, observer registered, no listener
registered yet. -/
def state1 : SyncState := SyncState.mk [frame1] [] true

/-- A concrete run from `state0`: two consecutive mutation batches, each with a
childList record, each delivering the document as it then stands. -/
def twoScanRun : SyncState :=
  step (step state0 (Event.mutationBatch [MutKind.childList] state0.iframes))
    (Event.mutationBatch [MutKind.childList]
      (step state0 (Event.mutationBatch [MutKind.childList] state0.iframes)).iframes)

/-- C2 counterexample: after two mutation batches that both find the same
frame (identity 0), two load listeners are registered for it, refuting
"at most one load-completion listener per element over the frame's
lifetime". -/
theorem listener_registered_twice_cex :
    twoScanRun.loadListeners.count 0 = 2 ∧
    ¬ (twoScanRun.loadListeners.count 0 ≤ 1) := by decide

/-- C2 amended: each mutation-batch scan registers one fresh load-completion
listener per frame found (so a frame accumulates one listener per scan that
finds it, not at most one per lifetime), and once at least one listener is
registered for a frame, its inner load event re-invokes `resizeIframe` on that
frame. -/
theorem scan_registers_listener_each_scan (s : SyncState) (kinds : List MutKind)
    (dom : List Iframe) (hobs : s.observing = true)
    (hk : MutKind.childList ∈ kinds)
    (hacc : ∀ e ∈ dom, e.contentWindow.isSome = true) :
    (step s (Event.mutationBatch kinds dom)).loadListeners
      = s.loadListeners ++ dom.map Iframe.id ∧
    ∀ s' : SyncState, ∀ fid : Nat, 0 < s'.loadListeners.count fid →
      (step s' (Event.frameLoad fid)).iframes = resizeById fid s'.iframes := by
  constructor
  · simp [step, hobs, hk, observerCallback_all_ok dom hacc]
  · intro s' fid hn
    cases hc : s'.loadListeners.count fid with
    | zero => rw [hc] at hn; exact absurd hn (lt_irrefl 0)
    | succ n => simp [step, hc, fireLoadListeners_pos]

/-- C2 amended witness: the scan on `state0` registers a listener for frame 0,
and a later inner load event resizes it. -/
theorem scan_registers_listener_each_scan_witness :
    state0.observing = true ∧ MutKind.childList ∈ [MutKind.childList] ∧
    (∀ e ∈ state0.iframes, e.contentWindow.isSome = true) ∧
    ((step state0 (Event.mutationBatch [MutKind.childList] state0.iframes)).loadListeners
      = state0.loadListeners ++ state0.iframes.map Iframe.id ∧
    ∀ s' : SyncState, ∀ fid : Nat, 0 < s'.loadListeners.count fid →
      (step s' (Event.frameLoad fid)).iframes = resizeById fid s'.iframes) :=
  ⟨rfl, by decide, by decide,
    scan_registers_listener_each_scan state0 [MutKind.childList] state0.iframes rfl
      (by decide) (by decide)⟩

/-- C3 counterexample: a frame already present when the host content-parsed
event runs keeps its unset height — initialization performs no scan, so its
height is not set to scroll height + 100 (which would be 300 for `frame0`). -/
theorem initialize_no_scan_cex :
    (step (SyncState.mk [frame0] [] false) Event.hostContentParsed).iframes = [frame0] ∧
    (step (SyncState.mk [frame0] [] false) Event.hostContentParsed).iframes.map Iframe.height
      = [none] ∧
    ¬ ((step (SyncState.mk [frame0] [] false) Event.hostContentParsed).iframes.map Iframe.height
      = [some 300]) := by decide

/-- C3 amended: when `initialize` runs on the host content-parsed event it only
registers the observer — frames already present keep their heights and no
listener is registered — and such frames are first resized by the first
subsequent childList mutation batch. -/
theorem initialize_registers_observer_only (s : SyncState)
    (hacc : ∀ e ∈ s.iframes, e.contentWindow.isSome = true) :
    (step s Event.hostContentParsed).iframes = s.iframes ∧
    (step s Event.hostContentParsed).observing = true ∧
    (step s Event.hostContentParsed).loadListeners = s.loadListeners ∧
    (step (step s Event.hostContentParsed)
        (Event.mutationBatch [MutKind.childList] s.iframes)).iframes
      = s.iframes.map applyResize := by
  refine ⟨rfl, rfl, rfl, ?_⟩
  simp [step, observerCallback_all_ok s.iframes hacc]

/-- C3 amended witness: on a concrete not-yet-observing state holding `frame0`,
initialization leaves the frame untouched and the first mutation batch resizes
it. -/
theorem initialize_registers_observer_only_witness :
    (∀ e ∈ (SyncState.mk [frame0] [] false).iframes, e.contentWindow.isSome = true) ∧
    ((step (SyncState.mk [frame0] [] false) Event.hostContentParsed).iframes
        = (SyncState.mk [frame0] [] false).iframes ∧
    (step (SyncState.mk [frame0] [] false) Event.hostContentParsed).observing = true ∧
    (step (SyncState.mk [frame0] [] false) Event.hostContentParsed).loadListeners
        = (SyncState.mk [frame0] [] false).loadListeners ∧
    (step (step (SyncState.mk [frame0] [] false) Event.hostContentParsed)
        (Event.mutationBatch [MutKind.childList] (SyncState.mk [frame0] [] false).iframes)).iframes
      = (SyncState.mk [frame0] [] false).iframes.map applyResize) :=
  ⟨by decide, initialize_registers_observer_only (SyncState.mk [frame0] [] false) (by decide)⟩

/-- C4: on a mutation batch holding a childList record, the callback rescans
the whole document: the resulting iframe list is every frame currently present
— mutated or not — with `resizeIframe` applied, and each accessible frame's
height becomes its own inner scroll height plus 100. -/
theorem mutation_rescans_all_frames (s : SyncState) (kinds : List MutKind)
    (dom : List Iframe) (hobs : s.observing = true)
    (hk : MutKind.childList ∈ kinds)
    (hacc : ∀ e ∈ dom, e.contentWindow.isSome = true) :
    (step s (Event.mutationBatch kinds dom)).iframes = dom.map applyResize ∧
    ∀ e ∈ dom, ∀ w, e.contentWindow = some w →
      (applyResize e).id = e.id ∧
      (applyResize e).height = some (w.bodyScrollHeight + 100) := by
  constructor
  · simp [step, hobs, hk, observerCallback_all_ok dom hacc]
  · intro e _ w hw
    rw [applyResize_accessible e w hw]
    exact ⟨rfl, rfl⟩

/-- C4 witness: a batch that inserts `frame0` next to the untouched `frame1`
resizes both, `frame1` included. -/
theorem mutation_rescans_all_frames_witness :
    state1.observing = true ∧ MutKind.childList ∈ [MutKind.childList] ∧
    (∀ e ∈ [frame1, frame0], e.contentWindow.isSome = true) ∧
    ((step state1 (Event.mutationBatch [MutKind.childList] [frame1, frame0])).iframes
        = [frame1, frame0].map applyResize ∧
    ∀ e ∈ [frame1, frame0], ∀ w, e.contentWindow = some w →
      (applyResize e).id = e.id ∧
      (applyResize e).height = some (w.bodyScrollHeight + 100)) :=
  ⟨rfl, by decide, by decide,
    mutation_rescans_all_frames state1 [MutKind.childList] [frame1, frame0] rfl
      (by decide) (by decide)⟩

/-- A single inner content height change touches no frame's height attribute,
identity, or registered listeners. -/
theorem step_innerHeightChange_heights (s : SyncState) (fid h : Nat) :
    (step s (Event.innerHeightChange fid h)).iframes.map Iframe.height
      = s.iframes.map Iframe.height ∧
    (step s (Event.innerHeightChange fid h)).iframes.map Iframe.id
      = s.iframes.map Iframe.id ∧
    (step s (Event.innerHeightChange fid h)).loadListeners = s.loadListeners := by
  refine ⟨?_, ?_, rfl⟩ <;>
  · simp only [step, List.map_map]
    refine List.map_congr_left fun e _ => ?_
    by_cases hid : e.id = fid <;> simp [Function.comp, hid, setInnerHeight]

/-- C5: across any sequence of inner content height changes, with no host
structural mutation and no load event, `resizeIframe` is never invoked: every
frame's height attribute stays at the value written by the last
synchronization, and no listener is added or removed. -/
theorem inner_changes_leave_heights_stale (s : SyncState)
    (changes : List (Nat × Nat)) :
    (changes.foldl (fun t c => step t (Event.innerHeightChange c.1 c.2)) s).iframes.map
        Iframe.height = s.iframes.map Iframe.height ∧
    (changes.foldl (fun t c => step t (Event.innerHeightChange c.1 c.2)) s).loadListeners
      = s.loadListeners := by
  induction changes generalizing s with
  | nil => exact ⟨rfl, rfl⟩
  | cons c cs ih =>
    have h1 := step_innerHeightChange_heights s c.1 c.2
    have h2 := ih (step s (Event.innerHeightChange c.1 c.2))
    exact ⟨h2.1.trans h1.1, h2.2.trans h1.2.2⟩

/-- C6: a mutation batch without a childList record never triggers the
callback: the state only takes the DOM change, with no rescan and no listener
registration; in particular a batch made of the attribute record that a height
write produces triggers nothing, so the writes done by resize cause no further
callback (no feedback loop). -/
theorem observer_ignores_non_childlist (s : SyncState) (kinds : List MutKind)
    (dom : List Iframe) (hk : MutKind.childList ∉ kinds) :
    step s (Event.mutationBatch kinds dom) = { s with iframes := dom } ∧
    step s (Event.mutationBatch [heightWriteMutation] dom)
      = { s with iframes := dom } := by
  have hw : MutKind.childList ∉ [heightWriteMutation] := by decide
  have h1 : ¬ (s.observing = true ∧ MutKind.childList ∈ kinds) := fun hh => hk hh.2
  have h2 : ¬ (s.observing = true ∧ MutKind.childList ∈ [heightWriteMutation]) :=
    fun hh => hw hh.2
  constructor
  · simp [step, h1]
  · simp [step, h2]
    intro _ hc
    exact absurd hc (by decide)

/-- C6 witness: on the concrete `state0`, an attribute-only batch leaves the
state unchanged apart from taking the new DOM. -/
theorem observer_ignores_non_childlist_witness :
    MutKind.childList ∉ [MutKind.attributes] ∧
    (step state0 (Event.mutationBatch [MutKind.attributes] state0.iframes)
        = { state0 with iframes := state0.iframes } ∧
     step state0 (Event.mutationBatch [heightWriteMutation] state0.iframes)
        = { state0 with iframes := state0.iframes }) :=
  ⟨by decide, observer_ignores_non_childlist state0 [MutKind.attributes]
    state0.iframes (by decide)⟩

/-- C7: resize is idempotent: if `resizeIframe e` succeeds with `e'`, running
it again on `e'` succeeds and assigns the same height, returning `e'`
itself. -/
theorem resize_idempotent (e e' : Iframe) (h : resizeIframe e = Except.ok e') :
    resizeIframe e' = Except.ok e' := by
  match hw : e.contentWindow with
  | none => simp [resizeIframe, hw] at h
  | some w =>
    simp [resizeIframe, hw] at h
    subst h
    simp [resizeIframe, hw]

/-- C7 witness: resizing `frame0` gives height 300, and resizing the result
again returns it unchanged. -/
theorem resize_idempotent_witness :
    resizeIframe frame0 = Except.ok (Iframe.mk 0 (some 300) (some (InnerDoc.mk 200))) ∧
    resizeIframe (Iframe.mk 0 (some 300) (some (InnerDoc.mk 200)))
      = Except.ok (Iframe.mk 0 (some 300) (some (InnerDoc.mk 200))) :=
  ⟨rfl, resize_idempotent frame0 (Iframe.mk 0 (some 300) (some (InnerDoc.mk 200))) rfl⟩

/-- Two accessible frames with equal inner scroll heights are assigned equal
heights by resize, whatever their other fields. -/
theorem applyResize_height_eq (e₁ e₂ : Iframe)
    (h₁ : e₁.contentWindow.isSome = true) (h₂ : e₂.contentWindow.isSome = true)
    (hagree : innerHeight e₁ = innerHeight e₂) :
    (applyResize e₁).height = (applyResize e₂).height := by
  obtain ⟨w₁, hw₁⟩ := Option.isSome_iff_exists.mp h₁
  obtain ⟨w₂, hw₂⟩ := Option.isSome_iff_exists.mp h₂
  rw [applyResize_accessible e₁ w₁ hw₁, applyResize_accessible e₂ w₂ hw₂]
  simp [innerHeight, hw₁, hw₂] at hagree
  simp [hagree]

/-- C8: noninterference between frames: for two document states whose frames
are all accessible and whose frames at position `i` have the same inner body
scroll height, the observer scan assigns position `i` the same height, however
the other frames' content sizes differ. -/
theorem resize_noninterference (l₁ l₂ : List Iframe) (i : Nat)
    (hacc₁ : ∀ e ∈ l₁, e.contentWindow.isSome = true)
    (hacc₂ : ∀ e ∈ l₂, e.contentWindow.isSome = true)
    (hagree : l₁[i]?.map innerHeight = l₂[i]?.map innerHeight) :
    ((observerCallback l₁).1[i]?.map Iframe.height)
      = ((observerCallback l₂).1[i]?.map Iframe.height) := by
  rw [observerCallback_all_ok l₁ hacc₁, observerCallback_all_ok l₂ hacc₂]
  simp only [List.getElem?_map, Option.map_map]
  match hg₁ : l₁[i]?, hg₂ : l₂[i]? with
  | none, none => rfl
  | none, some e₂ => rw [hg₁, hg₂] at hagree; cases hagree
  | some e₁, none => rw [hg₁, hg₂] at hagree; cases hagree
  | some e₁, some e₂ =>
    rw [hg₁, hg₂] at hagree
    have he₁ := hacc₁ e₁ (List.getElem?_mem hg₁)
    have he₂ := hacc₂ e₂ (List.getElem?_mem hg₂)
    have := applyResize_height_eq e₁ e₂ he₁ he₂ (Option.some_injective _ hagree)
    simp [Function.comp, this]

/-- C8 witness: two documents agreeing on the frame at position 0 but holding
a differently-sized second frame give position 0 the same height. -/
theorem resize_noninterference_witness :
    (∀ e ∈ [frame0, frame1], e.contentWindow.isSome = true) ∧
    (∀ e ∈ [frame0, Iframe.mk 1 none (some (InnerDoc.mk 999))],
      e.contentWindow.isSome = true) ∧
    [frame0, frame1][0]?.map innerHeight
      = [frame0, Iframe.mk 1 none (some (InnerDoc.mk 999))][0]?.map innerHeight ∧
    ((observerCallback [frame0, frame1]).1[0]?.map Iframe.height)
      = ((observerCallback
          [frame0, Iframe.mk 1 none (some (InnerDoc.mk 999))]).1[0]?.map Iframe.height) :=
  ⟨by decide, by decide, by decide,
    resize_noninterference [frame0, frame1]
      [frame0, Iframe.mk 1 none (some (InnerDoc.mk 999))] 0
      (by decide) (by decide) (by decide)⟩

/-- C9: every height value resize writes is the inner scroll height plus 100,
hence at least 100; with zero (or not-yet-rendered) inner content, exactly the
margin 100 is written. -/
theorem resize_height_at_least_margin (e e' : Iframe)
    (h : resizeIframe e = Except.ok e') :
    ∃ v, e'.height = some v ∧ 100 ≤ v ∧ (innerHeight e = some 0 → v = 100) := by
  match hw : e.contentWindow with
  | none => simp [resizeIframe, hw] at h
  | some w =>
    simp [resizeIframe, hw] at h
    subst h
    refine ⟨w.bodyScrollHeight + 100, rfl, by omega, fun hz => ?_⟩
    simp [innerHeight, hw] at hz
    omega

/-- C9 witness: a zero-content frame is assigned height exactly 100. -/
theorem resize_height_at_least_margin_witness :
    resizeIframe (Iframe.mk 2 none (some (InnerDoc.mk 0)))
      = Except.ok (Iframe.mk 2 (some 100) (some (InnerDoc.mk 0))) ∧
    ∃ v, (Iframe.mk 2 (some 100) (some (InnerDoc.mk 0))).height = some v ∧ 100 ≤ v ∧
      (innerHeight (Iframe.mk 2 none (some (InnerDoc.mk 0))) = some 0 → v = 100) :=
  ⟨rfl, resize_height_at_least_margin (Iframe.mk 2 none (some (InnerDoc.mk 0)))
    (Iframe.mk 2 (some 100) (some (InnerDoc.mk 0))) rfl⟩

/-- C10: when the inner window reference is absent, the property-chain read
throws before any assignment: `resizeIframe` reports an error, the element in
the document keeps its height, and an observer scan reaching it aborts with
that frame and every later frame untouched and no listener registered. -/
theorem resize_inaccessible_throws_no_write (e : Iframe)
    (h : e.contentWindow = none) :
    resizeIframe e = Except.error () ∧
    applyResize e = e ∧
    ∀ rest : List Iframe, observerCallback (e :: rest) = (e :: rest, [], false) := by
  refine ⟨?_, ?_, fun rest => ?_⟩
  · simp [resizeIframe, h]
  · simp [applyResize, resizeIframe, h]
  · simp [observerCallback, resizeIframe, h]

/-- C10 witness: a detached frame with height 42 keeps it; the scan aborts. -/
theorem resize_inaccessible_throws_no_write_witness :
    (Iframe.mk 3 (some 42) none).contentWindow = none ∧
    (resizeIframe (Iframe.mk 3 (some 42) none) = Except.error () ∧
     applyResize (Iframe.mk 3 (some 42) none) = Iframe.mk 3 (some 42) none ∧
     ∀ rest : List Iframe, observerCallback (Iframe.mk 3 (some 42) none :: rest)
       = (Iframe.mk 3 (some 42) none :: rest, [], false)) :=
  ⟨rfl, resize_inaccessible_throws_no_write (Iframe.mk 3 (some 42) none) rfl⟩

end FrameSync
